import Mathlib

/-!
Shallow embedding of the real-time pose-comparison and feedback engine of the
gym-feedback repository (React components `PoseCanvas.js`, `App.js`,
`Overlay.js`, `VideoPlayer.js`).

Conventions of the embedding:
* JS numbers are modelled as real numbers (`ℝ`) where square roots occur and as
  rationals (`ℚ`) where only field operations occur; machine integers and
  counters are `ℕ`.
* A JS expression that throws (for example dereferencing `undefined`) is
  modelled by `Option`/failure, i.e. `none`.
* The cooperative animation-frame loop is modelled as an explicit state machine
  over `LoopState`, with the browser scheduler made explicit (pending
  animation-frame request ids, a fresh-id counter).
-/

/-- A body landmark as consumed by `euclideanDistance` in `PoseCanvas.js`:
a point with coordinates `x`, `y`, `z`. -/
structure Landmark where
  x : ℝ
  y : ℝ
  z : ℝ

/-- Embedding of `euclideanDistance` (`PoseCanvas.js` lines 241-247):
`Math.sqrt((p1.x-p2.x)^2 + (p1.y-p2.y)^2 + (p1.z-p2.z)^2)`. -/
noncomputable def euclideanDistance (point1 point2 : Landmark) : ℝ :=
  Real.sqrt ((point1.x - point2.x) ^ 2 + (point1.y - point2.y) ^ 2 +
    (point1.z - point2.z) ^ 2)

/-- Embedding of the `reduce` in `detectPose` (`PoseCanvas.js` lines 331-334):
`currentLandmarks.reduce((sum, landmark, index) => sum +
euclideanDistance(landmark, otherLandmarks[index]), 0)`.  The reduce walks the
current list by position and indexes `otherLandmarks` at every position; when
`otherLandmarks[index]` is `undefined` (the counterpart list is shorter) the
JS code throws a `TypeError` inside `euclideanDistance`, modelled here by
`none`.  Summation is positional, so the structural recursion below computes
the same real value as the left-to-right JS accumulation. -/
noncomputable def totalDistance : List Landmark → List Landmark → Option ℝ
  | [], _ => some 0
  | _ :: _, [] => none
  | p :: ps, q :: qs => (totalDistance ps qs).map (fun s => euclideanDistance p q + s)

/-- Embedding of the match-percentage computation in `detectPose`
(`PoseCanvas.js` lines 325-337): `matchPercentage` starts at `100`; when
`otherLandmarks && otherLandmarks.length > 0` it becomes
`Math.max(0, 100 - (totalDistance / currentLandmarks.length) * 200)`; a throw
inside the reduce propagates, so no percentage is produced (`none`). -/
noncomputable def computeMatchPercentage (currentLandmarks otherLandmarks : List Landmark) :
    Option ℝ :=
  if 0 < otherLandmarks.length then
    match totalDistance currentLandmarks otherLandmarks with
    | some d => some (max 0 (100 - d / (currentLandmarks.length : ℝ) * 200))
    | none => none
  else
    some 100

/-- The match-percentage formula of the claim (spec §4.2), for comparison with
the code: `max(0, 100 − (count(anomalous joints) / total joints) × 200)`. -/
noncomputable def claimMatchPercentage (anomalousJoints totalJoints : ℕ) : ℝ :=
  max 0 (100 - ((anomalousJoints : ℝ) / (totalJoints : ℝ)) * 200)

/-- Modelled from the spec: the circular (cosine) distance of §4.2 between two
angles (in radians), `1 − cos(a)·cos(b) − sin(a)·sin(b)`.  The angle-based
comparison engine (`compareSnapshots`, §4.1-§4.2) is absent from `src/`, which
only contains the Euclidean variant, so this metric is taken from the words of
the spec. -/
noncomputable def circularDistance (a b : ℝ) : ℝ :=
  1 - Real.cos a * Real.cos b - Real.sin a * Real.sin b

/-- Modelled from the spec: the set of anomalous indices of §4.2, those whose
live/reference angles are at circular distance exceeding the threshold. -/
def specAnomalousSet (live reference : List ℝ) (threshold : ℝ) : Set ℕ :=
  { i | ∃ a b, live.get? i = some a ∧ reference.get? i = some b ∧
      threshold < circularDistance a b }

theorem euclideanDistance_self (p : Landmark) : euclideanDistance p p = 0 := by
  simp [euclideanDistance]

theorem totalDistance_self (l : List Landmark) : totalDistance l l = some 0 := by
  induction l with
  | nil => rfl
  | cons p ps ih => simp [totalDistance, ih, euclideanDistance_self]

theorem totalDistance_eq_none_iff (cur oth : List Landmark) :
    totalDistance cur oth = none ↔ oth.length < cur.length := by
  induction cur generalizing oth with
  | nil => simp [totalDistance]
  | cons p ps ih =>
    cases oth with
    | nil => simp [totalDistance]
    | cons q qs =>
      simp only [totalDistance, Option.map_eq_none', List.length_cons, ih,
        Nat.succ_lt_succ_iff]

theorem totalDistance_eq_zipWith (cur oth : List Landmark)
    (h : cur.length ≤ oth.length) :
    totalDistance cur oth = some ((List.zipWith euclideanDistance cur oth).sum) := by
  induction cur generalizing oth with
  | nil => simp [totalDistance]
  | cons p ps ih =>
    cases oth with
    | nil => simp at h
    | cons q qs =>
      simp only [List.length_cons, Nat.succ_le_succ_iff] at h
      simp [totalDistance, ih qs h]

/-- Claim C3: for any two identical landmark sets the comparison yields match
percentage exactly 100, and (in the angle-based formulation modelled from the
spec, with its default threshold 0.1) the anomalous set is empty, since the
circular distance of any angle to itself is zero. -/
theorem identical_sets_match_100 :
    ∀ (l : List Landmark) (angles : List ℝ),
      computeMatchPercentage l l = some 100 ∧
      specAnomalousSet angles angles (1 / 10) = ∅ := by
  intro l angles
  constructor
  · cases l with
    | nil => rfl
    | cons p ps =>
      simp [computeMatchPercentage, totalDistance_self]
  · ext i
    simp only [specAnomalousSet, Set.mem_setOf_eq, Set.mem_empty_iff_false,
      iff_false, not_exists]
    intro a b hab
    obtain ⟨ha, hb, hlt⟩ := hab
    rw [ha] at hb
    obtain rfl : a = b := Option.some.inj hb
    have hzero : circularDistance a a = 0 := by
      have hs := Real.sin_sq_add_cos_sq a
      unfold circularDistance
      nlinarith
    rw [hzero] at hlt
    norm_num at hlt

/-- Claim C10: when the counterpart landmark list is non-empty but shorter than
the current one, the reduce dereferences a missing element and the comparison
fails instead of returning a match percentage. -/
theorem comparison_fails_on_short_counterpart (cur oth : List Landmark)
    (h0 : 0 < oth.length) (hlt : oth.length < cur.length) :
    totalDistance cur oth = none ∧ computeMatchPercentage cur oth = none := by
  have hnone : totalDistance cur oth = none := (totalDistance_eq_none_iff cur oth).mpr hlt
  refine ⟨hnone, ?_⟩
  simp [computeMatchPercentage, h0, hnone]

/-- A concrete landmark at the origin, used in witnesses. -/
noncomputable def lmZero : Landmark := ⟨0, 0, 0⟩

/-- Witness for claim C10 at a concrete input: a two-landmark current list
against a one-landmark counterpart. -/
theorem comparison_fails_on_short_counterpart_witness :
    0 < ([lmZero] : List Landmark).length ∧
      ([lmZero] : List Landmark).length < ([lmZero, lmZero] : List Landmark).length ∧
      computeMatchPercentage [lmZero, lmZero] [lmZero] = none := by
  refine ⟨by simp, by simp, ?_⟩
  exact (comparison_fails_on_short_counterpart [lmZero, lmZero] [lmZero]
    (by simp) (by simp)).2

/-- The other-stream landmark list of the C1 counterexample: it coincides with
the current list at all 32 positions after index 0, and differs from it only
at index 0, by `33/200` along the x axis. -/
noncomputable def cexOther : List Landmark :=
  ⟨33 / 200, 0, 0⟩ :: List.replicate 32 ⟨0, 0, 0⟩

/-- The current-stream landmark list of the C1 counterexample (33 landmarks,
all at the origin). -/
noncomputable def cexCurrent : List Landmark :=
  ⟨0, 0, 0⟩ :: List.replicate 32 ⟨0, 0, 0⟩

theorem cexCurrent_length : cexCurrent.length = 33 := by
  simp [cexCurrent]

theorem cexOther_length : cexOther.length = 33 := by
  simp [cexOther]

/-- Claim C1 counterexample: on a concrete pair of non-empty 33-landmark sets
the code computes the match percentage 99, while the formula of the claim,
`max(0, 100 − (anomalous/33) × 200)`, cannot produce 99.  The two sets agree
at every joint except joint 0, and any distance metric is zero on a pair of
identical values, so the anomalous count is 0 or 1; both resulting claim
values (100 and 3100/33) differ from the computed 99.  The code in fact uses a
sum of Euclidean distances, with no anomaly count and no circular distance. -/
theorem matchPercentage_not_anomalous_formula_cex :
    computeMatchPercentage cexCurrent cexOther = some 99 ∧
      claimMatchPercentage 0 33 = 100 ∧
      claimMatchPercentage 1 33 = 3100 / 33 ∧
      claimMatchPercentage 0 33 ≠ 99 ∧
      claimMatchPercentage 1 33 ≠ 99 := by
  have hdist : euclideanDistance ⟨0, 0, 0⟩ ⟨33 / 200, 0, 0⟩ = 33 / 200 := by
    have hsq : ((0 : ℝ) - 33 / 200) ^ 2 + ((0 : ℝ) - 0) ^ 2 + ((0 : ℝ) - 0) ^ 2 =
        (33 / 200 : ℝ) ^ 2 := by ring
    rw [euclideanDistance]
    rw [show ((⟨0, 0, 0⟩ : Landmark).x - (⟨33 / 200, 0, 0⟩ : Landmark).x) ^ 2 +
        ((⟨0, 0, 0⟩ : Landmark).y - (⟨33 / 200, 0, 0⟩ : Landmark).y) ^ 2 +
        ((⟨0, 0, 0⟩ : Landmark).z - (⟨33 / 200, 0, 0⟩ : Landmark).z) ^ 2 =
        (33 / 200 : ℝ) ^ 2 from hsq]
    exact Real.sqrt_sq (by norm_num)
  have htot : totalDistance cexCurrent cexOther = some (33 / 200) := by
    rw [cexCurrent, cexOther]
    rw [show totalDistance (⟨0, 0, 0⟩ :: List.replicate 32 ⟨0, 0, 0⟩)
        (⟨33 / 200, 0, 0⟩ :: List.replicate 32 ⟨0, 0, 0⟩) =
        (totalDistance (List.replicate 32 ⟨0, 0, 0⟩) (List.replicate 32 ⟨0, 0, 0⟩)).map
          (fun s => euclideanDistance ⟨0, 0, 0⟩ ⟨33 / 200, 0, 0⟩ + s) from rfl]
    rw [totalDistance_self, hdist]
    simp
  refine ⟨?_, ?_, ?_, ?_, ?_⟩
  · rw [computeMatchPercentage]
    rw [if_pos (by rw [cexOther_length]; norm_num)]
    rw [htot, cexCurrent_length]
    norm_num
  · simp [claimMatchPercentage]
  · rw [claimMatchPercentage]
    norm_num
  · rw [claimMatchPercentage]
    norm_num
  · rw [claimMatchPercentage]
    norm_num

/-- Claim C1 as amended: when the comparison runs (counterpart non-empty) and
does not fail (counterpart at least as long as the current list), the computed
match percentage equals `max(0, 100 − (sum of per-landmark Euclidean
distances / number of landmarks in the current set) × 200)`; no anomalous
joint count or circular distance is involved. -/
theorem matchPercentage_euclidean_formula (cur oth : List Landmark)
    (h0 : 0 < oth.length) (hle : cur.length ≤ oth.length) :
    computeMatchPercentage cur oth =
      some (max 0 (100 - (List.zipWith euclideanDistance cur oth).sum /
        (cur.length : ℝ) * 200)) := by
  rw [computeMatchPercentage, if_pos h0, totalDistance_eq_zipWith cur oth hle]

/-- Witness for the amended claim C1, at a concrete one-landmark pair. -/
theorem matchPercentage_euclidean_formula_witness :
    0 < ([lmZero] : List Landmark).length ∧
      ([lmZero] : List Landmark).length ≤ ([lmZero] : List Landmark).length ∧
      computeMatchPercentage [lmZero] [lmZero] =
        some (max 0 (100 - (List.zipWith euclideanDistance [lmZero] [lmZero]).sum /
          (([lmZero] : List Landmark).length : ℝ) * 200)) := by
  refine ⟨by simp, le_refl _, ?_⟩
  exact matchPercentage_euclidean_formula [lmZero] [lmZero] (by simp) (le_refl _)

/-- Embedding of JS `Math.round`: rounds to the nearest integer, ties toward
positive infinity, i.e. `⌊x + 1/2⌋`. -/
def jsRound (x : ℚ) : ℤ := ⌊x + 1 / 2⌋

/-- Embedding of `getColorFromPercentage` (`PoseCanvas.js` lines 250-253):
`value = Math.round(255 * (percentage / 100))` and the result is the color
`rgb(value, value, value)`, modelled as the triple of its three channels. -/
def getColorFromPercentage (percentage : ℚ) : ℤ × ℤ × ℤ :=
  let value := jsRound (255 * (percentage / 100))
  (value, value, value)

/-- The color function of the claim (spec §4.2), for comparison with the code:
on 0-50 the color linearly interpolates red `(255,0,0)` to yellow
`(255,255,0)`, on 50-100 yellow to green `(0,255,0)`, each channel linearly
interpolated on its sub-range. -/
def claimInterpColor (percentage : ℚ) : ℤ × ℤ × ℤ :=
  if percentage ≤ 50 then
    (255, jsRound (255 * (percentage / 50)), 0)
  else
    (jsRound (255 * ((100 - percentage) / 50)), 255, 0)

/-- Claim C4 counterexample: at percentage 0 the code yields black `(0,0,0)`
where the claimed red→yellow interpolation yields red `(255,0,0)`, and at
percentage 100 the code yields white `(255,255,255)` where the claimed
yellow→green interpolation yields green `(0,255,0)`. -/
theorem getColor_not_interpolation_cex :
    getColorFromPercentage 0 = (0, 0, 0) ∧
      claimInterpColor 0 = (255, 0, 0) ∧
      getColorFromPercentage 100 = (255, 255, 255) ∧
      claimInterpColor 100 = (0, 255, 0) ∧
      getColorFromPercentage 0 ≠ claimInterpColor 0 ∧
      getColorFromPercentage 100 ≠ claimInterpColor 100 := by
  refine ⟨?_, ?_, ?_, ?_, ?_, ?_⟩ <;>
    norm_num [getColorFromPercentage, claimInterpColor, jsRound, Prod.ext_iff]

/-- Claim C4 as amended: the color encoding is a pure deterministic function of
the match percentage, but a grayscale ramp rather than a red→yellow→green one:
the three channels are equal, each `round(255·p/100)`, black at 0, white at
100, and monotonically nondecreasing in the percentage. -/
theorem getColorFromPercentage_grayscale (p q : ℚ) :
    (getColorFromPercentage p).1 = (getColorFromPercentage p).2.1 ∧
      (getColorFromPercentage p).1 = (getColorFromPercentage p).2.2 ∧
      getColorFromPercentage 0 = (0, 0, 0) ∧
      getColorFromPercentage 100 = (255, 255, 255) ∧
      (p ≤ q → (getColorFromPercentage p).1 ≤ (getColorFromPercentage q).1) := by
  refine ⟨rfl, rfl, ?_, ?_, ?_⟩
  · norm_num [getColorFromPercentage, jsRound, Prod.ext_iff]
  · norm_num [getColorFromPercentage, jsRound, Prod.ext_iff]
  · intro hpq
    simp only [getColorFromPercentage, jsRound]
    exact Int.floor_le_floor (by linarith)

/-- Witness for the amended claim C4, monotone part at 0 ≤ 50. -/
theorem getColorFromPercentage_grayscale_witness :
    (0 : ℚ) ≤ 50 ∧
      (getColorFromPercentage 0).1 ≤ (getColorFromPercentage 50).1 :=
  ⟨by norm_num, (getColorFromPercentage_grayscale 0 50).2.2.2.2 (by norm_num)⟩

/-- Embedding of `getScaledDimensions` (the `VideoPlayer` component, lines
33-47): the aspect is computed from the original width and height; if the
width exceeds the maximum it is clamped and the height recomputed from the
aspect; if the (possibly recomputed) height exceeds the maximum it is clamped
and the width recomputed from the aspect.  The source names the local
`aspectRatio`; it is shortened to `aspect` here. -/
def getScaledDimensions (width height maxWidth maxHeight : ℚ) : ℚ × ℚ :=
  let aspect := width / height
  let clamped := if maxWidth < width then (maxWidth, maxWidth / aspect) else (width, height)
  if maxHeight < clamped.2 then (maxHeight * aspect, maxHeight) else clamped

/-- Claim C9: for every input with positive native width and height, the scaled
dimensions fit in the 800×600 bounding box and preserve the aspect ratio of
the input exactly. -/
theorem getScaledDimensions_fits_and_preserves_aspect (w h : ℚ)
    (hw : 0 < w) (hh : 0 < h) :
    (getScaledDimensions w h 800 600).1 ≤ 800 ∧
      (getScaledDimensions w h 800 600).2 ≤ 600 ∧
      (getScaledDimensions w h 800 600).1 / (getScaledDimensions w h 800 600).2 =
        w / h := by
  have hhne : h ≠ 0 := ne_of_gt hh
  have hr : 0 < w / h := div_pos hw hh
  have hrne : w / h ≠ 0 := ne_of_gt hr
  rw [getScaledDimensions]
  by_cases h1 : (800 : ℚ) < w
  · simp only [if_pos h1]
    by_cases h2 : (600 : ℚ) < (800 : ℚ) / (w / h)
    · simp only [if_pos h2]
      refine ⟨?_, le_refl _, ?_⟩
      · have h800 : (600 : ℚ) * (w / h) < 800 := by
          rw [lt_div_iff₀ hr] at h2
          linarith
        linarith
      · rw [mul_comm, mul_div_assoc]
        simp
    · simp only [if_neg h2]
      refine ⟨le_refl _, le_of_not_lt h2, ?_⟩
      rw [div_div_eq_mul_div, mul_comm, mul_div_assoc]
      simp
  · simp only [if_neg h1]
    by_cases h2 : (600 : ℚ) < h
    · simp only [if_pos h2]
      refine ⟨?_, le_refl _, ?_⟩
      · rw [mul_div_assoc']
        rw [div_le_iff₀ hh]
        nlinarith [le_of_not_lt h1]
      · rw [mul_comm, mul_div_assoc]
        simp
    · simp only [if_neg h2]
      exact ⟨le_of_not_lt h1, le_of_not_lt h2, trivial⟩

/-- Witness for claim C9 at a concrete input: a 1600×400 video scales to
800×200, inside the box and with the aspect ratio 4 preserved. -/
theorem getScaledDimensions_fits_witness :
    (0 : ℚ) < 1600 ∧ (0 : ℚ) < 400 ∧
      (getScaledDimensions 1600 400 800 600).1 ≤ 800 ∧
      (getScaledDimensions 1600 400 800 600).2 ≤ 600 ∧
      (getScaledDimensions 1600 400 800 600).1 /
          (getScaledDimensions 1600 400 800 600).2 = (1600 : ℚ) / 400 := by
  refine ⟨by norm_num, by norm_num, ?_⟩
  have h := getScaledDimensions_fits_and_preserves_aspect 1600 400 (by norm_num) (by norm_num)
  exact ⟨h.1, h.2.1, h.2.2⟩

/-- The fixed overlay display duration (`Overlay.js` line 44):
`setTimeout(() => setShow(false), 10000)`. -/
def FEEDBACK_HIDE_MS : ℕ := 10000

/-- Embedding of the feedback filter in `sendLandmarksToBackend`
(`PoseCanvas.js` lines 275-277): the feedback state is updated only when
`data.feedback` is truthy (non-empty) and differs from the sentinel
`"No feedback yet"`; otherwise it is left unchanged. -/
def processFeedbackResponse (current response : String) : String :=
  if response ≠ "" ∧ response ≠ "No feedback yet" then response else current

/-- Embedding of the statistics prop fed to the overlay
(`PoseCanvas.js` line 172 / `VideoPlayer`): `feedback ? [feedback] : []`. -/
def overlayStatistics (feedback : String) : List String :=
  if feedback ≠ "" then [feedback] else []

/-- Embedding of the show condition of the overlay effect (`Overlay.js` lines
38-48): `statistics.length > 0 && statistics[0] !== ""`. -/
def overlayShow : List String → Bool
  | [] => false
  | s :: _ => s != ""

/-- Visibility of the overlay as a function of the time elapsed since the
statistics arrived (`Overlay.js` lines 34-49): shown on arrival when
`overlayShow`, hidden by the timer once `FEEDBACK_HIDE_MS` elapses. -/
def overlayVisibleAt (statistics : List String) (elapsedMs : ℕ) : Bool :=
  overlayShow statistics && decide (elapsedMs < FEEDBACK_HIDE_MS)

/-- Claim C2: a response that is the sentinel `"No feedback yet"` or empty
leaves the feedback state unchanged, so it never produces a visible feedback
item; any other non-empty response becomes the feedback state, and the
resulting overlay item is visible at an elapsed time exactly while that time
is below the fixed 10000 ms duration. -/
theorem feedback_sentinel_and_timing (current response : String) (t : ℕ) :
    ((response = "" ∨ response = "No feedback yet") →
        processFeedbackResponse current response = current) ∧
      (overlayVisibleAt (overlayStatistics "") t = false) ∧
      (response ≠ "" → response ≠ "No feedback yet" →
        processFeedbackResponse current response = response ∧
          (overlayVisibleAt (overlayStatistics response) t = true ↔
            t < FEEDBACK_HIDE_MS)) := by
  refine ⟨?_, ?_, ?_⟩
  · intro hre
    rcases hre with hre | hre <;>
      simp [processFeedbackResponse, hre]
  · simp [overlayVisibleAt, overlayStatistics, overlayShow]
  · intro hne hsent
    refine ⟨by simp [processFeedbackResponse, hne, hsent], ?_⟩
    simp [overlayVisibleAt, overlayStatistics, overlayShow, hne]

/-- Witness for claim C2 at concrete inputs: the sentinel leaves the previous
feedback in place, a real message replaces it, is visible at 9999 ms, and is
hidden at exactly 10000 ms. -/
theorem feedback_sentinel_and_timing_witness :
    processFeedbackResponse "old" "No feedback yet" = "old" ∧
      processFeedbackResponse "old" "Straighten your back" = "Straighten your back" ∧
      overlayVisibleAt (overlayStatistics "Straighten your back") 9999 = true ∧
      overlayVisibleAt (overlayStatistics "Straighten your back") 10000 = false := by
  refine ⟨?_, ?_, ?_, ?_⟩
  · exact (feedback_sentinel_and_timing "old" "No feedback yet" 0).1 (Or.inr rfl)
  · exact ((feedback_sentinel_and_timing "old" "Straighten your back" 0).2.2
      (by decide) (by decide)).1
  · exact ((feedback_sentinel_and_timing "old" "Straighten your back" 9999).2.2
      (by decide) (by decide)).2.mpr (by norm_num [FEEDBACK_HIDE_MS])
  · have h := ((feedback_sentinel_and_timing "old" "Straighten your back" 10000).2.2
      (by decide) (by decide)).2
    have hne : overlayVisibleAt (overlayStatistics "Straighten your back") 10000 ≠ true := by
      intro hc
      exact absurd (h.mp hc) (by norm_num [FEEDBACK_HIDE_MS])
    exact Bool.eq_false_iff.mpr hne

/-- The environment one `detectPose` iteration observes (`PoseCanvas.js` lines
283-364): `videoReady` is `videoRef.current && videoRef.current.readyState >=
2`; `landmarkerAvailable` is the `poseLandmarker` prop; `canvasAvailable` and
`ctxAvailable` are the canvas element and its 2d context; `width`/`height` are
`videoDimensions` (0 models a falsy JS dimension); `detection` is
`result.landmarks[0]` when `result.landmarks.length > 0`; `otherLandmarks` is
the counterpart-stream prop. -/
structure Env where
  videoReady : Bool
  landmarkerAvailable : Bool
  canvasAvailable : Bool
  ctxAvailable : Bool
  width : ℕ
  height : ℕ
  detection : Option (List Landmark)
  otherLandmarks : List Landmark

/-- The loop-relevant mutable state of one `PoseCanvas` instance plus the
browser scheduler made explicit: `animationId` is `animationIdRef.current`
(`none` models JS `null`; `requestAnimationFrame` ids are positive, so the JS
falsiness test coincides with the `null` test); `frameIndex` is
`frameIndex.current`; `pending` is the list of animation-frame request ids
registered for `detectPose` and not yet fired or canceled; `nextId` feeds
fresh request ids. -/
structure LoopState where
  animationId : Option ℕ
  frameIndex : ℕ
  nextId : ℕ
  pending : List ℕ
deriving DecidableEq

/-- The initial loop state: no animation id, frame counter zero, nothing
pending. -/
def initLoopState : LoopState :=
  { animationId := none, frameIndex := 0, nextId := 1, pending := [] }

/-- Embedding of `animationIdRef.current = requestAnimationFrame(detectPose)`
(`PoseCanvas.js` line 363): registers a fresh pending request and stores its
id. -/
def rescheduleFrame (s : LoopState) : LoopState :=
  { s with animationId := some s.nextId,
           pending := s.pending ++ [s.nextId],
           nextId := s.nextId + 1 }

/-- Embedding of one `detectPose` body (`PoseCanvas.js` lines 283-364).  The
early `return`s (missing canvas, missing context, invalid dimensions) exit
before the `requestAnimationFrame` call, so those paths leave the state
unchanged and schedule nothing.  A detection result whose comparison reduce
throws (counterpart non-empty but shorter, claim C10) aborts the iteration the
same way.  The not-ready and no-landmarks paths fall through to the
reschedule; a successful iteration also increments the frame counter.  The
body is modelled here as one atomic transition; that is exact for the paths
decided before the awaited `detectForVideo` call (the not-ready fall-through
and the early returns, which is all claim C5 uses), while the suspension at
the await is made explicit in the refined `AsyncLoopState` model below. -/
def detectPose (env : Env) (s : LoopState) : LoopState :=
  if env.videoReady ∧ env.landmarkerAvailable then
    if ¬env.canvasAvailable then s
    else if ¬env.ctxAvailable then s
    else if env.width = 0 ∨ env.height = 0 then s
    else
      match env.detection with
      | none => rescheduleFrame s
      | some lms =>
        if 0 < env.otherLandmarks.length ∧ env.otherLandmarks.length < lms.length then s
        else rescheduleFrame { s with frameIndex := s.frameIndex + 1 }
  else rescheduleFrame s

/-- Embedding of `stopPoseDetection` (`PoseCanvas.js` lines 218-223): when an
animation id is stored, `cancelAnimationFrame` removes that pending request
and the id is nulled; otherwise nothing happens. -/
def stopPoseDetection (s : LoopState) : LoopState :=
  match s.animationId with
  | some i => { s with pending := s.pending.erase i, animationId := none }
  | none => s

/-- The request ids `stopPoseDetection` passes to `cancelAnimationFrame` when
run in state `s`. -/
def stopCancels (s : LoopState) : List ℕ :=
  match s.animationId with
  | some i => [i]
  | none => []

/-- Embedding of `startPoseDetection` (`PoseCanvas.js` lines 226-230): runs a
`detectPose` iteration only when no animation id is stored. -/
def startPoseDetection (env : Env) (s : LoopState) : LoopState :=
  match s.animationId with
  | none => detectPose env s
  | some _ => s

/-- An idle environment used by loop theorems and witnesses: video ready,
landmarker present, canvas and context available, valid dimensions, no
detection, no counterpart landmarks. -/
def envIdle : Env :=
  { videoReady := true, landmarkerAvailable := true, canvasAvailable := true,
    ctxAvailable := true, width := 640, height := 480, detection := none,
    otherLandmarks := [] }

/-- A concrete running loop state used by loop witnesses: request 1 pending,
its id stored. -/
def runningLoopState : LoopState :=
  { animationId := some 1, frameIndex := 4, nextId := 2, pending := [1] }

/-- Refinement of the loop state that makes the `await` inside `detectPose`
explicit (`PoseCanvas.js` lines 318-321): `inFlightBodies` counts `detectPose`
bodies that have run their synchronous prefix and are suspended at the awaited
`detectForVideo` call, their continuation (lines 323-363, ending in the
`requestAnimationFrame`) still to run.  The other fields are as in
`LoopState`. -/
structure AsyncLoopState where
  animationId : Option ℕ
  frameIndex : ℕ
  nextId : ℕ
  pending : List ℕ
  inFlightBodies : ℕ
deriving DecidableEq

/-- The line-363 reschedule `animationIdRef.current =
requestAnimationFrame(detectPose)` on the refined state. -/
def asyncReschedule (s : AsyncLoopState) : AsyncLoopState :=
  { s with animationId := some s.nextId,
           pending := s.pending ++ [s.nextId],
           nextId := s.nextId + 1 }

/-- Embedding of the synchronous prefix of one `detectPose` body
(`PoseCanvas.js` lines 283-321): the not-ready branch falls through to the
line-363 reschedule without ever suspending; the early returns abort the body;
otherwise the body draws the frame and suspends at the awaited
`detectForVideo`, leaving one more in-flight body. -/
def beginDetectPose (env : Env) (s : AsyncLoopState) : AsyncLoopState :=
  if env.videoReady ∧ env.landmarkerAvailable then
    if ¬env.canvasAvailable then s
    else if ¬env.ctxAvailable then s
    else if env.width = 0 ∨ env.height = 0 then s
    else { s with inFlightBodies := s.inFlightBodies + 1 }
  else asyncReschedule s

/-- Embedding of the continuation of a suspended `detectPose` body once its
awaited detection resolves (`PoseCanvas.js` lines 323-363): the throwing
comparison (claim C10) kills the body before line 363; otherwise a detected
frame increments the counter, and either way line 363 registers a fresh
request and overwrites `animationIdRef.current` with its id. -/
def resumeDetectPose (env : Env) (s : AsyncLoopState) : AsyncLoopState :=
  if s.inFlightBodies = 0 then s
  else
    let s1 := { s with inFlightBodies := s.inFlightBodies - 1 }
    match env.detection with
    | none => asyncReschedule s1
    | some lms =>
      if 0 < env.otherLandmarks.length ∧ env.otherLandmarks.length < lms.length then s1
      else asyncReschedule { s1 with frameIndex := s1.frameIndex + 1 }

/-- Embedding of `stopPoseDetection` on the refined state: cancels the stored
id (a no-op on a request that has already fired) and nulls the ref; it cannot
reach the in-flight bodies. -/
def asyncStop (s : AsyncLoopState) : AsyncLoopState :=
  match s.animationId with
  | some i => { s with pending := s.pending.erase i, animationId := none }
  | none => s

/-- Embedding of `startPoseDetection` on the refined state: the guard inspects
only `animationIdRef.current`, not the in-flight bodies. -/
def asyncStart (env : Env) (s : AsyncLoopState) : AsyncLoopState :=
  match s.animationId with
  | none => beginDetectPose env s
  | some _ => s

/-- The browser firing a pending animation-frame request on the refined state:
the request is consumed and its `detectPose` body begins. -/
def asyncFire (env : Env) (s : AsyncLoopState) : AsyncLoopState :=
  match s.pending with
  | [] => s
  | _ :: rest => beginDetectPose env { s with pending := rest }

/-- A running loop on the refined state: request 1 pending, its id stored, no
body in flight. -/
def runningAsyncState : AsyncLoopState :=
  { animationId := some 1, frameIndex := 0, nextId := 2, pending := [1],
    inFlightBodies := 0 }

/-- The state after the claim C6 failing trace: the browser fires request 1
and the body suspends at the await, the stale id 1 staying in the ref; the
user stops (canceling the already-fired request is a no-op, the ref is
nulled) and starts again (the guard sees null and launches a second body);
then both suspended bodies resume and each runs the line-363 reschedule. -/
def asyncLeakState : AsyncLoopState :=
  resumeDetectPose envIdle (resumeDetectPose envIdle
    (asyncStart envIdle (asyncStop (asyncFire envIdle runningAsyncState))))

/-- The leaked pair keeps running: firing both pending requests of
`asyncLeakState` and resuming both bodies again still leaves two pending
self-rescheduling requests. -/
def asyncLeakPersistState : AsyncLoopState :=
  resumeDetectPose envIdle (resumeDetectPose envIdle
    (asyncFire envIdle (asyncFire envIdle asyncLeakState)))

/-- Claim C6 (divergence of the code from the claim): the guard
`!animationIdRef.current` of `startPoseDetection` is not sufficient across the
await suspension point inside `detectPose`.  After the failing trace
(stop-then-start while an iteration is suspended at the awaited
`detectForVideo`, reachable through `togglePlayPause`/`toggleStop`), two
requests (ids 2 and 3) are pending at once — two parallel self-rescheduling
loops — while the ref holds only id 3, so a stop cancels only that one and
request 2 is leaked; firing and resuming both loops once more still leaves
two pending requests.  The claim (and spec §4.3/§5) requires that starting
while already running is a no-op and that a second parallel loop never
arises, so the code, not the claim, is at fault. -/
theorem stop_start_during_await_leaks_second_loop :
    asyncLeakState.pending = [2, 3] ∧
      1 < asyncLeakState.pending.length ∧
      asyncLeakState.animationId = some 3 ∧
      (asyncStop asyncLeakState).pending = [2] ∧
      asyncLeakPersistState.pending.length = 2 := by
  refine ⟨?_, ?_, ?_, ?_, ?_⟩ <;> decide

/-- The failing environment of claim C5: the video is ready, the landmarker,
canvas and context are available, but the frame width is zero (a falsy JS
dimension). -/
def envInvalidDims : Env :=
  { videoReady := true, landmarkerAvailable := true, canvasAvailable := true,
    ctxAvailable := true, width := 0, height := 480, detection := none,
    otherLandmarks := [] }

/-- Claim C5 (divergence of the code from the claim): in an iteration that
observes invalid (zero) frame dimensions, `detectPose` returns before the
`requestAnimationFrame` call, so the state is unchanged and in particular no
next iteration is ever scheduled — the loop halts instead of rescheduling
itself, and the stale stored animation id additionally makes a later
`startPoseDetection` a no-op, so iterations cannot resume when dimensions
become valid. -/
theorem detectPose_invalid_dims_halts (s : LoopState) :
    detectPose envInvalidDims s = s ∧
      (detectPose envInvalidDims s).pending = s.pending ∧
      (s.animationId ≠ none →
        startPoseDetection envIdle (detectPose envInvalidDims s) = detectPose envInvalidDims s) := by
  have hstep : detectPose envInvalidDims s = s := by
    rw [detectPose]
    simp [envInvalidDims]
  refine ⟨hstep, by rw [hstep], ?_⟩
  intro hid
  rw [hstep, startPoseDetection]
  cases ha : s.animationId with
  | none => exact absurd ha hid
  | some i => rfl

/-- Witness for claim C5 at a concrete state: a loop that had scheduled
request 1 observes zero width; nothing changes, nothing new is pending, and a
subsequent start is refused. -/
theorem detectPose_invalid_dims_halts_witness :
    runningLoopState.animationId ≠ none ∧
      detectPose envInvalidDims runningLoopState = runningLoopState ∧
      startPoseDetection envIdle (detectPose envInvalidDims runningLoopState) =
        detectPose envInvalidDims runningLoopState := by
  have h := detectPose_invalid_dims_halts runningLoopState
  have hid : runningLoopState.animationId ≠ none := by simp [runningLoopState]
  exact ⟨hid, h.1, h.2.2 hid⟩

/-- Claim C7: stopping an already-stopped loop is harmless — a second
`stopPoseDetection` changes nothing, and it calls `cancelAnimationFrame` on
nothing at all, so no request is ever canceled twice.  The embedding is a
total function, mirroring that `stopPoseDetection` cannot throw: its only
actions are a null test, `cancelAnimationFrame` (which never throws) and an
assignment. -/
theorem stop_twice_no_double_cancel (s : LoopState) :
    stopPoseDetection (stopPoseDetection s) = stopPoseDetection s ∧
      stopCancels (stopPoseDetection s) = [] := by
  cases ha : s.animationId with
  | none =>
    rw [show stopPoseDetection s = s from by rw [stopPoseDetection, ha]]
    rw [stopPoseDetection, ha, stopCancels, ha]
    exact ⟨rfl, rfl⟩
  | some i =>
    have hstop : stopPoseDetection s =
        { s with pending := s.pending.erase i, animationId := none } := by
      rw [stopPoseDetection, ha]
    rw [hstop]
    exact ⟨rfl, rfl⟩

/-- The `App` component state relevant to stopping (`App.js`): presence flags
for `uploadedVideoRef.current` and `poseCanvasRef.current`, the
`isWebcamStreaming` and `isPlaying` flags, the video `currentTime`, the
detection-loop state behind `poseCanvasRef`, and the two retained landmark
lists `webcamLandmarks` and `uploadedVideoLandmarks` (each stream's latest
pose snapshot). -/
structure AppState where
  videoPresent : Bool
  poseCanvasPresent : Bool
  isWebcamStreaming : Bool
  isPlaying : Bool
  currentTime : ℚ
  loop : LoopState
  webcamLandmarks : List Landmark
  uploadedVideoLandmarks : List Landmark

/-- Embedding of `toggleStop` (`App.js` lines 153-164): when the uploaded
video element exists, it clears the webcam-streaming flag, pauses playback,
calls `stopPoseDetection` through the canvas ref when present, resets the
video position and the displayed time to zero, and marks playback stopped.
Nothing else is touched. -/
def toggleStop (s : AppState) : AppState :=
  if s.videoPresent then
    { s with isWebcamStreaming := false,
             isPlaying := false,
             currentTime := 0,
             loop := if s.poseCanvasPresent then stopPoseDetection s.loop else s.loop }
  else s

theorem stopPoseDetection_frameIndex (s : LoopState) :
    (stopPoseDetection s).frameIndex = s.frameIndex := by
  rw [stopPoseDetection]
  cases s.animationId <;> rfl

/-- A concrete pre-stop application state for the C8 counterexample: a video
and canvas are present, frame 5 has been processed, both streams hold a
landmark snapshot, and request 1 is pending. -/
noncomputable def appStateCex : AppState :=
  { videoPresent := true, poseCanvasPresent := true, isWebcamStreaming := true,
    isPlaying := true, currentTime := 7,
    loop := { animationId := some 1, frameIndex := 5, nextId := 2, pending := [1] },
    webcamLandmarks := [lmZero], uploadedVideoLandmarks := [lmZero] }

/-- Claim C8 counterexample: after an explicit stop at a concrete state, the
frame counter still reads 5 (not reset to zero) and both streams still retain
their latest landmark snapshot (nothing is discarded), contradicting the
claim; the code also never clears the canvas in this path. -/
theorem toggleStop_keeps_frame_and_landmarks_cex :
    (toggleStop appStateCex).loop.frameIndex = 5 ∧
      (toggleStop appStateCex).loop.frameIndex ≠ 0 ∧
      (toggleStop appStateCex).webcamLandmarks = [lmZero] ∧
      (toggleStop appStateCex).uploadedVideoLandmarks = [lmZero] ∧
      (toggleStop appStateCex).webcamLandmarks ≠ [] := by
  refine ⟨?_, ?_, ?_, ?_, ?_⟩ <;>
    simp [toggleStop, appStateCex, stopPoseDetection]

/-- Claim C8 as amended: on an explicit stop (also run on video end and before
a new upload) with the video element and canvas ref present, the webcam flag
and playing flag are cleared, the video position is reset to zero, and the
pending detection request is canceled (the loop state becomes the stopped
one, with no stored animation id); the frame counter keeps its value and both
streams' latest landmarks are retained, so the canvas is not cleared, the
counter is not reset, and no snapshot is discarded. -/
theorem toggleStop_effects (s : AppState) (hv : s.videoPresent = true)
    (hc : s.poseCanvasPresent = true) :
    (toggleStop s).isWebcamStreaming = false ∧
      (toggleStop s).isPlaying = false ∧
      (toggleStop s).currentTime = 0 ∧
      (toggleStop s).loop = stopPoseDetection s.loop ∧
      (toggleStop s).loop.animationId = none ∧
      (toggleStop s).loop.frameIndex = s.loop.frameIndex ∧
      (toggleStop s).webcamLandmarks = s.webcamLandmarks ∧
      (toggleStop s).uploadedVideoLandmarks = s.uploadedVideoLandmarks := by
  rw [toggleStop, if_pos (by rw [hv]), if_pos (by rw [hc])]
  refine ⟨rfl, rfl, rfl, rfl, ?_, ?_, rfl, rfl⟩
  · show (stopPoseDetection s.loop).animationId = none
    rw [stopPoseDetection]
    cases ha : s.loop.animationId with
    | none => exact ha
    | some i => rfl
  · exact stopPoseDetection_frameIndex s.loop

/-- Witness for the amended claim C8 at the concrete pre-stop state. -/
theorem toggleStop_effects_witness :
    appStateCex.videoPresent = true ∧
      appStateCex.poseCanvasPresent = true ∧
      (toggleStop appStateCex).currentTime = 0 ∧
      (toggleStop appStateCex).loop.animationId = none ∧
      (toggleStop appStateCex).loop.frameIndex = appStateCex.loop.frameIndex := by
  have h := toggleStop_effects appStateCex rfl rfl
  exact ⟨rfl, rfl, h.2.2.1, h.2.2.2.2.1, h.2.2.2.2.2.1⟩
